import Mathlib

/-!
Shallow embedding of the water-quality monitoring dashboard
(frontend React application) and proofs about its data-handling logic:
threshold status classifiers, the realtime feed subscription callback,
the prediction HTTP clients, forecast normalization, CSV export and the
corrosion simulation sequence editor.

Numeric sensor values are modelled as rationals (ℚ); every numeric
constant appearing in the source (5, 6.5, 300, …) is exactly
representable as a binary double, so the JavaScript comparisons agree
with the rational ones.
-/

namespace WaterQuality

/-- Result of a status classifier: a qualitative label and a Tailwind
severity color class, as returned by the getXStatus helpers in
src/frontend/src/App.jsx. -/
structure Status where
  status : String
  color : String
deriving DecidableEq, Repr

/-- Embeds getPhStatus (src/frontend/src/App.jsx lines 187-193, identical
copy in src/unnamed/part_000 lines 282-288): an if/else-if ladder over
the pH value, evaluated top to bottom. -/
def getPhStatus (ph : ℚ) : Status :=
  if ph < 5 then { status := "Acidic", color := "text-red-600" }
  else if ph < 6.5 ∧ ph > 5 then { status := "Slightly Acidic", color := "text-orange-500" }
  else if ph > 6.5 ∧ ph < 7.5 then { status := "Neutral", color := "text-green-600" }
  else if ph < 9.0 ∧ ph > 7.5 then { status := "Slightly Basic", color := "text-blue-500" }
  else { status := "Basic", color := "text-purple-600" }

/-- Embeds getTurbidityStatus (src/frontend/src/App.jsx lines 195-200). -/
def getTurbidityStatus (turbidity : ℚ) : Status :=
  if turbidity < 1 then { status := "Excellent", color := "text-green-600" }
  else if turbidity < 5 then { status := "Good", color := "text-blue-500" }
  else if turbidity < 10 then { status := "Fair", color := "text-orange-500" }
  else { status := "Poor", color := "text-red-600" }

/-- Embeds getTdsStatus (src/frontend/src/App.jsx lines 202-207). -/
def getTdsStatus (tds : ℚ) : Status :=
  if tds < 300 then { status := "Excellent", color := "text-green-600" }
  else if tds < 600 then { status := "Good", color := "text-blue-500" }
  else if tds < 900 then { status := "Fair", color := "text-orange-500" }
  else { status := "Poor", color := "text-red-600" }

/-- Embeds getTemperatureStatus (src/frontend/src/App.jsx lines 209-215,
identical copy in src/unnamed/part_000 lines 304-310). Note the two
middle guards use strict inequalities on both sides. -/
def getTemperatureStatus (temp : ℚ) : Status :=
  if temp < 20 then { status := "Cold", color := "text-blue-600" }
  else if temp < 25 then { status := "Cool", color := "text-blue-600" }
  else if temp > 25 ∧ temp < 30 then { status := "Normal", color := "text-green-600" }
  else if temp > 30 ∧ temp < 35 then { status := "Warm", color := "text-orange-500" }
  else { status := "Hot", color := "text-red-600" }

/-- Embeds getConductivityStatus (src/frontend/src/App.jsx lines 217-221). -/
def getConductivityStatus (conductivity : ℚ) : Status :=
  if conductivity < 200 then { status := "Low", color := "text-blue-500" }
  else if conductivity < 800 then { status := "Normal", color := "text-green-600" }
  else { status := "High", color := "text-red-600" }

/-- Modelled from the spec (section 4.2): the pH band table read as
half-open, lower-inclusive intervals evaluated top-to-bottom with first
match winning, so each boundary value belongs to exactly one band.
Written to be compared against getPhStatus, which is embedded from the
source. -/
def phStatusSpec (ph : ℚ) : String :=
  if ph < 5 then "Acidic"
  else if ph < 6.5 then "Slightly Acidic"
  else if ph < 7.5 then "Neutral"
  else if ph < 9.0 then "Slightly Basic"
  else "Basic"

/-- Body of a GET /predict response: forecast timestamps and, per
parameter name, a series of nullable numbers, plus an optional error
field. The predictions mapping is modelled as an association list. -/
structure PredictBody where
  timestamps : List String
  predictions : List (String × List (Option ℚ))
  error : Option String
deriving DecidableEq, Repr

/-- Body of a GET /predict-corrosion (or POST /simulate-corrosion)
response. -/
structure CorrosionBody where
  risk_level : String
  risk_probability : ℚ
  timestamp : String
  error : Option String
deriving DecidableEq, Repr

/-- Body of a GET /predict-quality response. -/
structure QualityBody where
  grade : String
  grade_probabilities : List (String × ℚ)
  feature_importance : List (String × ℚ)
  timestamp : String
  error : Option String
deriving DecidableEq, Repr

/-- Outcome of one awaited fetch-plus-json attempt as observed by the
client code: either a parsed body, or a thrown transport/parse error
carrying the thrown error message. -/
inductive FetchOutcome (β : Type) where
  | success (body : β)
  | failure (msg : String)
deriving DecidableEq, Repr

/-- JavaScript truthiness of the optional error field as tested by
`if (data.error)`: taken exactly when the field is present and is not
the empty string (the only falsy string). -/
def errTruthy : Option String → Bool
  | none => false
  | some m => m != ""

/-- The generic user-facing message set by the /predict client of
src/frontend/src/App.jsx (first variant) and src/unnamed/part_000. -/
def predictFailureMsg : String := "Failed to fetch predictions. Please try again later."

/-- React state touched by the first /predict client variant. -/
structure PredictClientState where
  predictions : Option PredictBody
  error : Option String
deriving DecidableEq, Repr

/-- Embeds fetchPredictions of src/frontend/src/App.jsx lines 162-177
(identical logic in src/unnamed/part_000 lines 257-272) as a transition
on the component state, given the outcome of the awaited fetch: an
error-flagged body throws, and the catch block sets the generic message
without touching the stored predictions; a clean body is stored and the
error is cleared. -/
def fetchPredictions (s : PredictClientState) (o : FetchOutcome PredictBody) :
    PredictClientState :=
  match o with
  | .success body =>
      if errTruthy body.error then
        { s with error := some predictFailureMsg }
      else
        { predictions := some body, error := none }
  | .failure _ =>
      { s with error := some predictFailureMsg }

/-- React state touched by the second /predict client variant. -/
structure PredictClientState2 where
  predictions : Option PredictBody
  error : Option String
  isLoading : Bool
deriving DecidableEq, Repr

/-- Embeds the second fetchPredictions variant (src/frontend/src/App.jsx
lines 1082-1100): no inspection of the body's error field — every parsed
body is stored via setPredictions; only a thrown fetch/json error sets
the error state, and the finally block always clears isLoading. -/
def fetchPredictions2 (s : PredictClientState2) (o : FetchOutcome PredictBody) :
    PredictClientState2 :=
  match o with
  | .success body => { s with predictions := some body, isLoading := false }
  | .failure msg => { s with error := some msg, isLoading := false }

/-- React state touched by the corrosion-risk client. -/
structure CorrosionClientState where
  riskData : Option CorrosionBody
  error : Option String
  loading : Bool
deriving DecidableEq, Repr

/-- Embeds fetchCorrosionRisk
(src/frontend/src/components/CorrosionRiskAssessment.jsx lines 29-45):
an error-flagged body throws `new Error(data.error)` and the catch block
stores that message via setError(err.message); a clean body is stored
and the error cleared; loading is always cleared in finally. -/
def fetchCorrosionRisk (s : CorrosionClientState) (o : FetchOutcome CorrosionBody) :
    CorrosionClientState :=
  match o with
  | .success body =>
      match body.error with
      | some m =>
          if m = "" then { riskData := some body, error := none, loading := false }
          else { s with error := some m, loading := false }
      | none => { riskData := some body, error := none, loading := false }
  | .failure msg => { s with error := some msg, loading := false }

/-- React state touched by the quality-classification client. -/
structure QualityClientState where
  qualityData : Option QualityBody
  error : Option String
  loading : Bool
deriving DecidableEq, Repr

/-- Embeds fetchQualityData
(src/frontend/src/components/WaterQualityClassification.jsx lines 9-25),
structurally identical to fetchCorrosionRisk. -/
def fetchQualityData (s : QualityClientState) (o : FetchOutcome QualityBody) :
    QualityClientState :=
  match o with
  | .success body =>
      match body.error with
      | some m =>
          if m = "" then { qualityData := some body, error := none, loading := false }
          else { s with error := some m, loading := false }
      | none => { qualityData := some body, error := none, loading := false }
  | .failure msg => { s with error := some msg, loading := false }

/-- Concrete /predict body carrying an error field, used in
counterexamples and witnesses. -/
def errorBody : PredictBody :=
  { timestamps := ["t1"], predictions := [("ph", [some 6.5])],
    error := some "model unavailable" }

/-- Concrete clean /predict body (no error field), used in
counterexamples and witnesses. -/
def goodBody : PredictBody :=
  { timestamps := ["t1", "t2"], predictions := [("ph", [some 6.5, none])],
    error := none }

/-- Concrete corrosion body carrying an error field, used in witnesses. -/
def corrErrorBody : CorrosionBody :=
  { risk_level := "", risk_probability := 0, timestamp := "t", error := some "sensor offline" }

/-- Concrete quality body carrying an error field, used in witnesses. -/
def qualErrorBody : QualityBody :=
  { grade := "", grade_probabilities := [], feature_importance := [], timestamp := "t",
    error := some "no data" }

/-- A sensor reading as materialized from a realtime snapshot child in
the onValue callbacks: the child key plus the stored fields
(src/frontend/src/App.jsx lines 143-157). The timestamp is the stored
ISO-8601 string; the sort comparator applies an external date parser to
it. -/
structure Reading where
  id : String
  timestamp : String
  ph : ℚ
  turbidity : ℚ
  tds : ℚ
  temperature : ℚ
  conductivity : ℚ
deriving DecidableEq, Repr

/-- Embeds `data.sort((a, b) => new Date(b.timestamp) - new Date(a.timestamp))`
(descending), with dateVal modelling the numeric value of
`new Date(s)` for the host's date parser. Any correct comparison sort
yields this result; insertion sort realizes it. -/
def sortByTimestampDesc (dateVal : String → Int) (l : List Reading) : List Reading :=
  l.insertionSort (fun a b => dateVal b.timestamp ≤ dateVal a.timestamp)

/-- Embeds `data.sort((a, b) => new Date(a.timestamp) - new Date(b.timestamp))`
(ascending), as in src/src/App.jsx line 36. -/
def sortByTimestampAsc (dateVal : String → Int) (l : List Reading) : List Reading :=
  l.insertionSort (fun a b => dateVal a.timestamp ≤ dateVal b.timestamp)

/-- Embeds the onValue callback of src/frontend/src/App.jsx lines
143-157: materialize the snapshot, sort descending by timestamp, and
publish the sequence (setSensorData) and its first element data[0]
(setLatestData); on an empty snapshot data[0] is undefined. -/
def onValueCallbackDesc (dateVal : String → Int) (snapshot : List Reading) :
    List Reading × Option Reading :=
  let data := sortByTimestampDesc dateVal snapshot
  (data, data.head?)

/-- Embeds the onValue callback of src/src/App.jsx lines 26-40: sort
ascending and publish the sequence and data[data.length - 1]. -/
def onValueCallbackAsc (dateVal : String → Int) (snapshot : List Reading) :
    List Reading × Option Reading :=
  let data := sortByTimestampAsc dateVal snapshot
  (data, data.getLast?)

/-- Concrete date parser used in witnesses: any function String → Int
instantiates the abstract parser. -/
def exDateVal : String → Int := fun s => s.length

/-- Concrete reading used in witnesses and counterexamples. -/
def exReading1 : Reading :=
  { id := "k1", timestamp := "t1", ph := 7, turbidity := 1, tds := 300,
    temperature := 27, conductivity := 500 }

/-- Second concrete reading; its timestamp parses to a later value under
exDateVal. -/
def exReading2 : Reading :=
  { id := "k2", timestamp := "t22", ph := 4.9, turbidity := 6, tds := 700,
    temperature := 31, conductivity := 900 }

/-- Concrete snapshot used in witnesses. -/
def exSnapshot : List Reading := [exReading1, exReading2]

/-- A value in a normalized chart series: absent (JavaScript undefined,
skipped by the charting layer) or a number. -/
inductive ChartVal where
  | absent
  | num (q : ℚ)
deriving DecidableEq, Repr

/-- Embeds `values.map(v => v === null ? undefined : v)` from
cleanPredictions. -/
def cleanSeries (values : List (Option ℚ)) : List ChartVal :=
  values.map (fun v => match v with | none => ChartVal.absent | some x => ChartVal.num x)

/-- Normalized bundle produced by cleanPredictions: same timestamps and
error field; each prediction series has nulls replaced by absent
markers. -/
structure CleanBundle where
  timestamps : List String
  predictions : List (String × List ChartVal)
  error : Option String
deriving DecidableEq, Repr

/-- Embeds cleanPredictions (src/frontend/src/App.jsx lines 396-405,
identical copy in src/unnamed/part_000 lines 491-500): the spread keeps
every other field, and the predictions object is rebuilt entrywise with
each series normalized by cleanSeries. -/
def cleanPredictions (b : PredictBody) : CleanBundle :=
  { timestamps := b.timestamps
    predictions := b.predictions.map (fun kv => (kv.1, cleanSeries kv.2))
    error := b.error }

/-- Number.prototype.toFixed(2) on a nonnegative value, per the ECMA
specification: the integer n with n / 100 as close as possible to x,
ties resolved to the larger n — that is ⌊100 x + 1/2⌋ — rendered with
exactly two digits after the decimal point. -/
def toFixed2Nonneg (x : ℚ) : String :=
  let n : Nat := (⌊x * 100 + 1/2⌋).toNat
  toString (n / 100) ++ "." ++ (if n % 100 < 10 then "0" else "") ++ toString (n % 100)

/-- Number.prototype.toFixed(2): negative values are sign-prefixed after
negating, per the ECMA algorithm. Sensor values are modelled as exact
rationals. -/
def toFixed2 (x : ℚ) : String :=
  if x < 0 then "-" ++ toFixed2Nonneg (-x) else toFixed2Nonneg x

/-- The header cells of the CSV export
(src/frontend/src/App.jsx line 302). -/
def csvHeaders : List String :=
  ["Timestamp", "pH", "Turbidity (NTU)", "TDS (ppm)", "Temperature (°C)",
   "Conductivity (μS/cm)"]

/-- One data row of the CSV export before joining: the timestamp plus
the five numeric fields formatted with toFixed(2)
(src/frontend/src/App.jsx lines 303-310). -/
def csvRow (r : Reading) : List String :=
  [r.timestamp, toFixed2 r.ph, toFixed2 r.turbidity, toFixed2 r.tds,
   toFixed2 r.temperature, toFixed2 r.conductivity]

/-- The lines of the CSV export: the comma-joined header row followed by
one comma-joined row per reading of the timestamp-sorted data
(src/frontend/src/App.jsx lines 299-316). -/
def csvLines (dateVal : String → Int) (allData : List Reading) : List String :=
  String.intercalate "," csvHeaders ::
    (sortByTimestampDesc dateVal allData).map (fun r => String.intercalate "," (csvRow r))

/-- Embeds the csvContent assembly of downloadData
(src/frontend/src/App.jsx lines 313-316): the lines joined by a single
newline each — newline-separated, with no trailing newline. -/
def csvContent (dateVal : String → Int) (allData : List Reading) : String :=
  String.intercalate "\n" (csvLines dateVal allData)

/-- The five editable numeric parameters of the corrosion simulation
(the param argument of handleParameterChange). -/
inductive Param where
  | ph | turbidity | tds | temperature | conductivity
deriving DecidableEq, Repr

/-- A Reading-like object of the simulated sequence in
CorrosionRiskAssessment. The timestamp is optional because the initial
simulatedParams object carries no timestamp field. -/
structure SimParams where
  ph : ℚ
  turbidity : ℚ
  tds : ℚ
  temperature : ℚ
  conductivity : ℚ
  timestamp : Option String
deriving DecidableEq, Repr

/-- The computed-key update `{ ...obj, [param]: value }`. -/
def setParam (p : Param) (v : ℚ) (r : SimParams) : SimParams :=
  match p with
  | .ph => { r with ph := v }
  | .turbidity => { r with turbidity := v }
  | .tds => { r with tds := v }
  | .temperature => { r with temperature := v }
  | .conductivity => { r with conductivity := v }

/-- Embeds the sequence state initializer Array(10).fill(defaults)
(src/frontend/src/components/CorrosionRiskAssessment.jsx lines 19-26)
with t0 the mount-time new Date().toISOString(). -/
def initialSequence (t0 : String) : List SimParams :=
  List.replicate 10
    { ph := 7, turbidity := 1, tds := 300, temperature := 27, conductivity := 500,
      timestamp := some t0 }

/-- The simulation-relevant React state of CorrosionRiskAssessment. -/
structure CorrosionSimState where
  sequence : List SimParams
  selectedTimeStep : Nat
  simulatedParams : SimParams
deriving DecidableEq, Repr

/-- The component's initial state: the 10-entry sequence,
selectedTimeStep 9, and the default simulatedParams (which has no
timestamp field). -/
def initialSimState (t0 : String) : CorrosionSimState :=
  { sequence := initialSequence t0
    selectedTimeStep := 9
    simulatedParams :=
      { ph := 7, turbidity := 1, tds := 300, temperature := 27, conductivity := 500,
        timestamp := none } }

/-- Embeds handleParameterChange
(src/frontend/src/components/CorrosionRiskAssessment.jsx lines 79-91):
update simulatedParams and replace the entry at selectedTimeStep with
the spread of the old entry, the changed parameter and a fresh
timestamp. The selected index is always in range because it only ever
receives indices of the rendered sequence; the out-of-range branch is
unreachable and modelled as the identity. -/
def handleParameterChange (p : Param) (v : ℚ) (now : String) (s : CorrosionSimState) :
    CorrosionSimState :=
  { s with
    simulatedParams := setParam p v s.simulatedParams
    sequence :=
      match s.sequence[s.selectedTimeStep]? with
      | some old =>
          s.sequence.set s.selectedTimeStep
            { setParam p v old with timestamp := some now }
      | none => s.sequence }

/-- Embeds handleTimeStepChange
(src/frontend/src/components/CorrosionRiskAssessment.jsx lines 117-120):
select the step and copy sequence[step] into simulatedParams. -/
def handleTimeStepChange (step : Nat) (s : CorrosionSimState) : CorrosionSimState :=
  { s with
    selectedTimeStep := step
    simulatedParams :=
      match s.sequence[step]? with
      | some r => r
      | none => s.simulatedParams }

/-- A user interaction with the simulation editor. -/
inductive SimEvent where
  | paramChange (p : Param) (v : ℚ) (now : String)
  | timeStepChange (step : Nat)
deriving DecidableEq, Repr

/-- One state transition of the simulation editor. -/
def simStep (s : CorrosionSimState) : SimEvent → CorrosionSimState
  | .paramChange p v now => handleParameterChange p v now s
  | .timeStepChange step => handleTimeStepChange step s

/-- The UI only emits time-step selections for indices of the rendered
sequence: the buttons are generated by sequence.map with its index
(lines 392-397 and 533-537 of the component). -/
def validEvent (s : CorrosionSimState) : SimEvent → Prop
  | .paramChange _ _ _ => True
  | .timeStepChange step => step < s.sequence.length

/-- Folds a list of interactions over the editor state. -/
def runSim (s : CorrosionSimState) : List SimEvent → CorrosionSimState
  | [] => s
  | e :: es => runSim (simStep s e) es

/-- All events of the run are valid for the state at which they fire. -/
def ValidRun (s : CorrosionSimState) : List SimEvent → Prop
  | [] => True
  | e :: es => validEvent s e ∧ ValidRun (simStep s e) es

/-- The request body of POST /simulate-corrosion:
JSON.stringify(sequence) (line 101 of the component). -/
def simulateCorrosionBody (s : CorrosionSimState) : List SimParams := s.sequence

lemma phStatus_acidic_iff (ph : ℚ) : (getPhStatus ph).status = "Acidic" ↔ ph < 5 := by
  unfold getPhStatus
  split_ifs with h1 h2 h3 h4 <;> simp <;> first | exact h1 | exact not_lt.mp h1

lemma phStatus_slightlyAcidic_iff (ph : ℚ) :
    (getPhStatus ph).status = "Slightly Acidic" ↔ 5 < ph ∧ ph < 6.5 := by
  unfold getPhStatus
  split_ifs with h1 h2 h3 h4 <;> simp
  · intro h; linarith
  · exact ⟨h2.2, h2.1⟩
  · intro h; linarith [h3.1]
  · intro h; linarith [h4.2]
  · intro h
    by_contra hq
    push_neg at hq
    exact h2 ⟨hq, h⟩

lemma phStatus_neutral_iff (ph : ℚ) :
    (getPhStatus ph).status = "Neutral" ↔ 6.5 < ph ∧ ph < 7.5 := by
  unfold getPhStatus
  split_ifs with h1 h2 h3 h4 <;> simp
  · intro h; linarith
  · intro h; linarith [h2.1]
  · exact ⟨h3.1, h3.2⟩
  · intro h; linarith [h4.2]
  · intro h
    by_contra hq
    push_neg at hq
    exact h3 ⟨h, hq⟩

lemma phStatus_slightlyBasic_iff (ph : ℚ) :
    (getPhStatus ph).status = "Slightly Basic" ↔ 7.5 < ph ∧ ph < 9 := by
  unfold getPhStatus
  split_ifs with h1 h2 h3 h4 <;> simp
  · intro h; linarith
  · intro h; linarith [h2.1]
  · intro h; linarith [h3.2]
  · exact ⟨h4.2, by linarith [h4.1]⟩
  · intro h
    by_contra hq
    push_neg at hq
    exact h4 ⟨by linarith, h⟩

lemma phStatus_basic_iff (ph : ℚ) :
    (getPhStatus ph).status = "Basic" ↔ (ph = 5 ∨ ph = 6.5 ∨ ph = 7.5 ∨ 9 ≤ ph) := by
  unfold getPhStatus
  split_ifs with h1 h2 h3 h4
  · constructor
    · intro h; exact absurd h (by decide)
    · rintro (rfl | rfl | rfl | h) <;> exfalso <;> linarith
  · obtain ⟨ha, hb⟩ := h2
    constructor
    · intro h; exact absurd h (by decide)
    · rintro (rfl | rfl | rfl | h) <;> exfalso <;> linarith
  · obtain ⟨ha, hb⟩ := h3
    constructor
    · intro h; exact absurd h (by decide)
    · rintro (rfl | rfl | rfl | h) <;> exfalso <;> linarith
  · obtain ⟨ha, hb⟩ := h4
    constructor
    · intro h; exact absurd h (by decide)
    · rintro (rfl | rfl | rfl | h) <;> exfalso <;> linarith
  · constructor
    · intro _
      have h5 : 5 ≤ ph := not_lt.mp h1
      rcases h5.lt_or_eq with h5 | h5
      · have h65 : 6.5 ≤ ph := by
          by_contra hq; push_neg at hq; exact h2 ⟨hq, h5⟩
        rcases h65.lt_or_eq with h65 | h65
        · have h75 : 7.5 ≤ ph := by
            by_contra hq; push_neg at hq; exact h3 ⟨h65, hq⟩
          rcases h75.lt_or_eq with h75 | h75
          · have h9 : 9 ≤ ph := by
              by_contra hq; push_neg at hq; exact h4 ⟨by linarith, h75⟩
            exact Or.inr (Or.inr (Or.inr h9))
          · exact Or.inr (Or.inr (Or.inl h75.symm))
        · exact Or.inr (Or.inl h65.symm)
      · exact Or.inl h5.symm
    · intro _; rfl

/-- Claim C1, counterexample. The claim reads the pH bands as half-open
intervals so that each boundary value 5, 6.5, 7.5 belongs to exactly one
band. On the code this fails: the middle guards of getPhStatus are
strict on both sides, so the boundary values fall through every band and
return "Basic". At ph = 6.5 the half-open band table (lower-inclusive,
first match wins, embodied by phStatusSpec) yields "Neutral" while the
code yields "Basic"; at ph = 5 the table yields "Slightly Acidic" while
the code yields "Basic". -/
theorem C1_counterexample_boundary_values :
    (getPhStatus 6.5).status = "Basic" ∧ (getPhStatus 5).status = "Basic" ∧
    phStatusSpec 6.5 = "Neutral" ∧ phStatusSpec 5 = "Slightly Acidic" ∧
    (getPhStatus 6.5).status ≠ phStatusSpec 6.5 ∧ (getPhStatus 5).status ≠ phStatusSpec 5 := by
  norm_num [getPhStatus, phStatusSpec]
  exact ⟨by decide, by decide⟩

/-- Claim C1, amended: for every rational pH value, getPhStatus returns
the label of the band containing it where the inner bands are open
intervals — ph < 5 gives "Acidic", 5 < ph < 6.5 gives "Slightly Acidic",
6.5 < ph < 7.5 gives "Neutral", 7.5 < ph < 9 gives "Slightly Basic" —
and every other value, including the boundary points 5, 6.5, 7.5 and all
ph ≥ 9, gives "Basic". The five iffs jointly characterize the classifier
on all inputs. -/
theorem C1_phStatus_open_bands (ph : ℚ) :
    ((getPhStatus ph).status = "Acidic" ↔ ph < 5) ∧
    ((getPhStatus ph).status = "Slightly Acidic" ↔ 5 < ph ∧ ph < 6.5) ∧
    ((getPhStatus ph).status = "Neutral" ↔ 6.5 < ph ∧ ph < 7.5) ∧
    ((getPhStatus ph).status = "Slightly Basic" ↔ 7.5 < ph ∧ ph < 9) ∧
    ((getPhStatus ph).status = "Basic" ↔ (ph = 5 ∨ ph = 6.5 ∨ ph = 7.5 ∨ 9 ≤ ph)) :=
  ⟨phStatus_acidic_iff ph, phStatus_slightlyAcidic_iff ph, phStatus_neutral_iff ph,
    phStatus_slightlyBasic_iff ph, phStatus_basic_iff ph⟩

/-- Claim C10: for a temperature of exactly 25 or exactly 30,
getTemperatureStatus returns status "Hot": the "Normal" and "Warm"
guards use strict inequalities on both sides, so the boundary points
fall through to the final "Hot" branch. -/
theorem C10_temperature_boundary_hot :
    (getTemperatureStatus 25).status = "Hot" ∧ (getTemperatureStatus 30).status = "Hot" := by
  norm_num [getTemperatureStatus]

/-- Claim C2, counterexample. The claim asserts that for every
prediction client variant, a body containing an error field yields an
Error state carrying that message and the bundle is never stored. The
second /predict variant (src/frontend/src/App.jsx lines 1082-1100)
never inspects the error field: it stores the error-flagged body as the
active bundle and leaves the error state empty. Moreover the first
/predict variant sets the generic message, not the body's message. -/
theorem C2_counterexample_variant_divergence :
    errorBody.error = some "model unavailable" ∧
    (fetchPredictions2 ⟨none, none, true⟩ (.success errorBody)).predictions = some errorBody ∧
    (fetchPredictions2 ⟨none, none, true⟩ (.success errorBody)).error = none ∧
    (fetchPredictions ⟨none, none⟩ (.success errorBody)).error = some predictFailureMsg ∧
    predictFailureMsg ≠ "model unavailable" :=
  ⟨rfl, rfl, rfl, rfl, by decide⟩

/-- Claim C2, amended: in the clients that inspect the body's error
field — the first /predict variant (and its src/unnamed/part_000 copy),
the /predict-corrosion client and the /predict-quality client — a
response body with a truthy (non-empty) error field results in an Error
state and the returned bundle is not stored; the corrosion and quality
clients carry the body's error message, while the first /predict variant
sets its generic message instead. (The second /predict variant checks
nothing and stores the body, per the counterexample.) -/
theorem C2_error_flagged_body_not_stored
    (s1 : PredictClientState) (b1 : PredictBody) (m1 : String)
    (h1 : b1.error = some m1) (hm1 : m1 ≠ "")
    (s2 : CorrosionClientState) (b2 : CorrosionBody) (m2 : String)
    (h2 : b2.error = some m2) (hm2 : m2 ≠ "")
    (s3 : QualityClientState) (b3 : QualityBody) (m3 : String)
    (h3 : b3.error = some m3) (hm3 : m3 ≠ "") :
    ((fetchPredictions s1 (.success b1)).predictions = s1.predictions ∧
     (fetchPredictions s1 (.success b1)).error = some predictFailureMsg) ∧
    ((fetchCorrosionRisk s2 (.success b2)).riskData = s2.riskData ∧
     (fetchCorrosionRisk s2 (.success b2)).error = some m2) ∧
    ((fetchQualityData s3 (.success b3)).qualityData = s3.qualityData ∧
     (fetchQualityData s3 (.success b3)).error = some m3) := by
  refine ⟨?_, ?_, ?_⟩
  · simp [fetchPredictions, errTruthy, h1, hm1]
  · simp [fetchCorrosionRisk, h2, hm2]
  · simp [fetchQualityData, h3, hm3]

/-- Claim C2, witness: the amended theorem applied to concrete
error-flagged bodies delivered to empty client states. -/
theorem C2_error_flagged_body_witness :
    errorBody.error = some "model unavailable" ∧ "model unavailable" ≠ "" ∧
    ((fetchPredictions ⟨none, none⟩ (.success errorBody)).predictions = none ∧
     (fetchPredictions ⟨none, none⟩ (.success errorBody)).error = some predictFailureMsg) ∧
    ((fetchCorrosionRisk ⟨none, none, true⟩ (.success corrErrorBody)).riskData = none ∧
     (fetchCorrosionRisk ⟨none, none, true⟩ (.success corrErrorBody)).error
        = some "sensor offline") :=
  ⟨rfl, by decide,
    (C2_error_flagged_body_not_stored ⟨none, none⟩ errorBody "model unavailable" rfl (by decide)
      ⟨none, none, true⟩ corrErrorBody "sensor offline" rfl (by decide)
      ⟨none, none, true⟩ qualErrorBody "no data" rfl (by decide)).1,
    (C2_error_flagged_body_not_stored ⟨none, none⟩ errorBody "model unavailable" rfl (by decide)
      ⟨none, none, true⟩ corrErrorBody "sensor offline" rfl (by decide)
      ⟨none, none, true⟩ qualErrorBody "no data" rfl (by decide)).2.1⟩

/-- Claim C4, counterexample. The claim asserts that a transport failure
of the /predict fetch clears any previously stored bundle. The catch
block only calls setError: starting from a state holding goodBody, after
a transport failure the stored bundle is still present (not absent). -/
theorem C4_counterexample_bundle_not_cleared :
    (fetchPredictions ⟨some goodBody, none⟩ (.failure "Failed to fetch")).predictions
        = some goodBody ∧
    (fetchPredictions ⟨some goodBody, none⟩ (.failure "Failed to fetch")).error
        = some predictFailureMsg ∧
    (some goodBody ≠ (none : Option PredictBody)) :=
  ⟨rfl, rfl, by simp⟩

/-- Claim C4, amended: on every transport failure of the /predict fetch,
the client sets the generic user-facing error message but leaves the
previously stored prediction bundle untouched (the bundle is not
cleared). -/
theorem C4_transport_failure_keeps_bundle (s : PredictClientState) (m : String) :
    (fetchPredictions s (.failure m)).error = some predictFailureMsg ∧
    (fetchPredictions s (.failure m)).predictions = s.predictions :=
  ⟨rfl, rfl⟩

/-- Claim C5, counterexample. After a successful fetch stored goodBody,
a failed fetch sets the error message while the bundle stays stored, so
the client holds both a Success bundle and an Error message; dually the
second /predict variant stores a bundle on success without clearing a
prior error message. -/
theorem C5_counterexample_both_states :
    ((fetchPredictions (fetchPredictions ⟨none, none⟩ (.success goodBody))
        (.failure "Failed to fetch")).predictions = some goodBody ∧
     (fetchPredictions (fetchPredictions ⟨none, none⟩ (.success goodBody))
        (.failure "Failed to fetch")).error = some predictFailureMsg) ∧
    ((fetchPredictions2 ⟨none, some "Failed to fetch", false⟩ (.success goodBody)).predictions
        = some goodBody ∧
     (fetchPredictions2 ⟨none, some "Failed to fetch", false⟩ (.success goodBody)).error
        = some "Failed to fetch") :=
  ⟨⟨rfl, rfl⟩, ⟨rfl, rfl⟩⟩

/-- Claim C5, amended: a successful fetch stores the bundle and clears
any prior error message in the error-checking clients (first /predict
variant, corrosion, quality); a failed fetch sets the error message but
leaves the previously stored bundle in place; and the second /predict
variant stores the bundle on success while leaving any prior error
message untouched. Hence "exactly one of Success or Error" only holds
when the prior state held no bundle (for failures) respectively no
error (for the second variant's successes). -/
theorem C5_completed_fetch_states :
    (∀ (s : PredictClientState) (b : PredictBody), errTruthy b.error = false →
      (fetchPredictions s (.success b)).predictions = some b ∧
      (fetchPredictions s (.success b)).error = none) ∧
    (∀ (s : PredictClientState) (m : String),
      (fetchPredictions s (.failure m)).predictions = s.predictions ∧
      (fetchPredictions s (.failure m)).error = some predictFailureMsg) ∧
    (∀ (s : CorrosionClientState) (b : CorrosionBody), b.error = none →
      (fetchCorrosionRisk s (.success b)).riskData = some b ∧
      (fetchCorrosionRisk s (.success b)).error = none) ∧
    (∀ (s : QualityClientState) (b : QualityBody), b.error = none →
      (fetchQualityData s (.success b)).qualityData = some b ∧
      (fetchQualityData s (.success b)).error = none) ∧
    (∀ (s : PredictClientState2) (b : PredictBody),
      (fetchPredictions2 s (.success b)).predictions = some b ∧
      (fetchPredictions2 s (.success b)).error = s.error) := by
  refine ⟨fun s b hb => ?_, fun s m => ⟨rfl, rfl⟩, fun s b hb => ?_, fun s b hb => ?_,
    fun s b => ⟨rfl, rfl⟩⟩
  · simp [fetchPredictions, hb]
  · simp [fetchCorrosionRisk, hb]
  · simp [fetchQualityData, hb]

/-- Claim C5, witness: a successful fetch of the clean goodBody from a
state holding a stale error message stores the bundle and clears the
error. -/
theorem C5_completed_fetch_witness :
    errTruthy goodBody.error = false ∧
    ((fetchPredictions ⟨none, some "stale error"⟩ (.success goodBody)).predictions
        = some goodBody ∧
     (fetchPredictions ⟨none, some "stale error"⟩ (.success goodBody)).error = none) :=
  ⟨rfl, C5_completed_fetch_states.1 ⟨none, some "stale error"⟩ goodBody rfl⟩

lemma sortByTimestampDesc_perm (dateVal : String → Int) (l : List Reading) :
    List.Perm (sortByTimestampDesc dateVal l) l :=
  List.perm_insertionSort _ l

lemma sortByTimestampAsc_perm (dateVal : String → Int) (l : List Reading) :
    List.Perm (sortByTimestampAsc dateVal l) l :=
  List.perm_insertionSort _ l

lemma sortByTimestampDesc_sorted (dateVal : String → Int) (l : List Reading) :
    (sortByTimestampDesc dateVal l).Sorted
      (fun a b => dateVal b.timestamp ≤ dateVal a.timestamp) := by
  haveI : IsTotal Reading (fun a b => dateVal b.timestamp ≤ dateVal a.timestamp) :=
    ⟨fun a b => le_total _ _⟩
  haveI : IsTrans Reading (fun a b => dateVal b.timestamp ≤ dateVal a.timestamp) :=
    ⟨fun a b c hab hbc => le_trans hbc hab⟩
  exact List.sorted_insertionSort _ l

lemma sortByTimestampAsc_sorted (dateVal : String → Int) (l : List Reading) :
    (sortByTimestampAsc dateVal l).Sorted
      (fun a b => dateVal a.timestamp ≤ dateVal b.timestamp) := by
  haveI : IsTotal Reading (fun a b => dateVal a.timestamp ≤ dateVal b.timestamp) :=
    ⟨fun a b => le_total _ _⟩
  haveI : IsTrans Reading (fun a b => dateVal a.timestamp ≤ dateVal b.timestamp) :=
    ⟨fun a b c hab hbc => le_trans hab hbc⟩
  exact List.sorted_insertionSort _ l

lemma sorted_rel_getLast {α : Type} {r : α → α → Prop} :
    ∀ {l : List α} (_hs : l.Sorted r) (hne : l ≠ []) (x : α), x ∈ l →
      x = l.getLast hne ∨ r x (l.getLast hne) := by
  intro l
  induction l with
  | nil => intro _ hne; exact absurd rfl hne
  | cons a t ih =>
    intro hs hne x hx
    by_cases ht : t = []
    · subst ht
      simp only [List.mem_singleton] at hx
      subst hx
      left
      rfl
    · have hgl : (a :: t).getLast hne = t.getLast ht := List.getLast_cons ht
      rcases List.mem_cons.mp hx with rfl | hx
      · right
        rw [hgl]
        exact (List.rel_of_sorted_cons hs) _ (List.getLast_mem ht)
      · rw [hgl]
        exact ih hs.of_cons ht x hx

/-- Claim C3: for every non-empty snapshot of at most 100 entries with
pairwise distinct timestamp values delivered to the realtime
subscription callback, the published sequence has the snapshot's length
and is strictly ordered by timestamp — strictly descending in the
frontend variant (src/frontend/src/App.jsx) and strictly ascending in
the plain variant (src/src/App.jsx). -/
theorem C3_published_sequence_sorted (dateVal : String → Int) (snapshot : List Reading)
    (_hne : snapshot ≠ []) (_hlen : snapshot.length ≤ 100)
    (hdist : snapshot.Pairwise (fun a b => dateVal a.timestamp ≠ dateVal b.timestamp)) :
    ((onValueCallbackDesc dateVal snapshot).1.length = snapshot.length ∧
     (onValueCallbackDesc dateVal snapshot).1.Pairwise
        (fun a b => dateVal b.timestamp < dateVal a.timestamp)) ∧
    ((onValueCallbackAsc dateVal snapshot).1.length = snapshot.length ∧
     (onValueCallbackAsc dateVal snapshot).1.Pairwise
        (fun a b => dateVal a.timestamp < dateVal b.timestamp)) := by
  have hsym : ∀ {x y : Reading},
      (fun a b => dateVal a.timestamp ≠ dateVal b.timestamp) x y →
      (fun a b => dateVal a.timestamp ≠ dateVal b.timestamp) y x := fun h => h.symm
  constructor
  · constructor
    · exact (sortByTimestampDesc_perm dateVal snapshot).length_eq
    · have hd : (sortByTimestampDesc dateVal snapshot).Pairwise
          (fun a b => dateVal a.timestamp ≠ dateVal b.timestamp) :=
        ((sortByTimestampDesc_perm dateVal snapshot).pairwise_iff hsym).mpr hdist
      have hs := sortByTimestampDesc_sorted dateVal snapshot
      exact (hs.and hd).imp (fun h => lt_of_le_of_ne h.1 h.2.symm)
  · constructor
    · exact (sortByTimestampAsc_perm dateVal snapshot).length_eq
    · have hd : (sortByTimestampAsc dateVal snapshot).Pairwise
          (fun a b => dateVal a.timestamp ≠ dateVal b.timestamp) :=
        ((sortByTimestampAsc_perm dateVal snapshot).pairwise_iff hsym).mpr hdist
      have hs := sortByTimestampAsc_sorted dateVal snapshot
      exact (hs.and hd).imp (fun h => lt_of_le_of_ne h.1 h.2)

/-- Claim C3, witness: the two-reading snapshot exSnapshot with distinct
parsed timestamps satisfies the hypotheses, and the theorem applies. -/
theorem C3_published_sequence_sorted_witness :
    (exSnapshot ≠ []) ∧ (exSnapshot.length ≤ 100) ∧
    exSnapshot.Pairwise (fun a b => exDateVal a.timestamp ≠ exDateVal b.timestamp) ∧
    (((onValueCallbackDesc exDateVal exSnapshot).1.length = exSnapshot.length ∧
      (onValueCallbackDesc exDateVal exSnapshot).1.Pairwise
         (fun a b => exDateVal b.timestamp < exDateVal a.timestamp)) ∧
     ((onValueCallbackAsc exDateVal exSnapshot).1.length = exSnapshot.length ∧
      (onValueCallbackAsc exDateVal exSnapshot).1.Pairwise
         (fun a b => exDateVal a.timestamp < exDateVal b.timestamp))) :=
  ⟨by simp [exSnapshot], by simp [exSnapshot], by decide,
    C3_published_sequence_sorted exDateVal exSnapshot (by simp [exSnapshot])
      (by simp [exSnapshot]) (by decide)⟩

/-- Claim C8: for every non-empty snapshot, the single reading published
as the latest reading is an entry of the snapshot whose timestamp value
is maximal — data[0] after the descending sort in the frontend variant,
data[data.length - 1] after the ascending sort in the plain variant. -/
theorem C8_latest_is_max_timestamp (dateVal : String → Int) (snapshot : List Reading)
    (hne : snapshot ≠ []) :
    (∃ r, (onValueCallbackDesc dateVal snapshot).2 = some r ∧ r ∈ snapshot ∧
      ∀ x ∈ snapshot, dateVal x.timestamp ≤ dateVal r.timestamp) ∧
    (∃ r, (onValueCallbackAsc dateVal snapshot).2 = some r ∧ r ∈ snapshot ∧
      ∀ x ∈ snapshot, dateVal x.timestamp ≤ dateVal r.timestamp) := by
  constructor
  · have hperm := sortByTimestampDesc_perm dateVal snapshot
    have hs := sortByTimestampDesc_sorted dateVal snapshot
    have hne2 : sortByTimestampDesc dateVal snapshot ≠ [] := by
      intro h
      exact hne (List.Perm.eq_nil (h ▸ hperm).symm)
    obtain ⟨a, t, hat⟩ := List.exists_cons_of_ne_nil hne2
    refine ⟨a, ?_, ?_, ?_⟩
    · show (sortByTimestampDesc dateVal snapshot).head? = some a
      rw [hat]; rfl
    · exact hperm.mem_iff.mp (by rw [hat]; exact List.mem_cons_self a t)
    · intro x hx
      have hx2 : x ∈ a :: t := by rw [← hat]; exact hperm.mem_iff.mpr hx
      rcases List.mem_cons.mp hx2 with rfl | hx2
      · exact le_refl _
      · exact List.rel_of_sorted_cons (hat ▸ hs) x hx2
  · have hperm := sortByTimestampAsc_perm dateVal snapshot
    have hs := sortByTimestampAsc_sorted dateVal snapshot
    have hne2 : sortByTimestampAsc dateVal snapshot ≠ [] := by
      intro h
      exact hne (List.Perm.eq_nil (h ▸ hperm).symm)
    refine ⟨(sortByTimestampAsc dateVal snapshot).getLast hne2, ?_, ?_, ?_⟩
    · show (sortByTimestampAsc dateVal snapshot).getLast? = _
      exact List.getLast_mem_getLast? hne2
    · exact hperm.mem_iff.mp (List.getLast_mem hne2)
    · intro x hx
      have hx2 : x ∈ sortByTimestampAsc dateVal snapshot := hperm.mem_iff.mpr hx
      rcases sorted_rel_getLast hs hne2 x hx2 with rfl | h
      · exact le_refl _
      · exact h

/-- Claim C8, witness: on the concrete two-reading snapshot, both
variants publish a snapshot member with maximal parsed timestamp. -/
theorem C8_latest_is_max_timestamp_witness :
    (exSnapshot ≠ []) ∧
    ((∃ r, (onValueCallbackDesc exDateVal exSnapshot).2 = some r ∧ r ∈ exSnapshot ∧
       ∀ x ∈ exSnapshot, exDateVal x.timestamp ≤ exDateVal r.timestamp) ∧
     (∃ r, (onValueCallbackAsc exDateVal exSnapshot).2 = some r ∧ r ∈ exSnapshot ∧
       ∀ x ∈ exSnapshot, exDateVal x.timestamp ≤ exDateVal r.timestamp)) :=
  ⟨by simp [exSnapshot],
    C8_latest_is_max_timestamp exDateVal exSnapshot (by simp [exSnapshot])⟩

/-- Claim C6: cleanPredictions preserves the timestamps, the parameter
keys and the length of every series, and maps each series value at
index i to the absent marker exactly when the original value is null,
leaving every non-null numeric value unchanged at its index. -/
theorem C6_clean_normalization (b : PredictBody) :
    (cleanPredictions b).timestamps = b.timestamps ∧
    (cleanPredictions b).predictions.map Prod.fst = b.predictions.map Prod.fst ∧
    ∀ k vs, (k, vs) ∈ b.predictions →
      ((k, cleanSeries vs) ∈ (cleanPredictions b).predictions ∧
       (cleanSeries vs).length = vs.length ∧
       ∀ i : Nat,
         ((cleanSeries vs)[i]? = some ChartVal.absent ↔ vs[i]? = some none) ∧
         ∀ x : ℚ, vs[i]? = some (some x) → (cleanSeries vs)[i]? = some (ChartVal.num x)) := by
  refine ⟨rfl, ?_, ?_⟩
  · simp [cleanPredictions, List.map_map, Function.comp]
  · intro k vs hmem
    refine ⟨?_, List.length_map _ _, ?_⟩
    · exact List.mem_map_of_mem (fun kv => (kv.1, cleanSeries kv.2)) hmem
    · intro i
      constructor
      · cases h : vs[i]? with
        | none => simp [cleanSeries, List.getElem?_map, h]
        | some v =>
          cases v <;> simp [cleanSeries, List.getElem?_map, h]
      · intro x hx
        simp [cleanSeries, List.getElem?_map, hx]

/-- Claim C6, witness: on goodBody, whose ph series is [6.5, null], the
normalized series has the absent marker at index 1 and the unchanged
number 6.5 at index 0 (end-to-end scenario 3 of the spec). -/
theorem C6_clean_normalization_witness :
    ("ph", [some (6.5 : ℚ), none]) ∈ goodBody.predictions ∧
    (cleanSeries [some (6.5 : ℚ), none])[1]? = some ChartVal.absent ∧
    (cleanSeries [some (6.5 : ℚ), none])[0]? = some (ChartVal.num 6.5) :=
  ⟨by simp [goodBody],
   (((C6_clean_normalization goodBody).2.2 "ph" [some 6.5, none]
      (by simp [goodBody])).2.2 1).1.mpr rfl,
   (((C6_clean_normalization goodBody).2.2 "ph" [some 6.5, none]
      (by simp [goodBody])).2.2 0).2 6.5 rfl⟩

lemma toFixed2_of_floor (x : ℚ) (n : ℕ) (hx : ¬ x < 0) (hn : ⌊x * 100 + 1/2⌋ = (n : ℤ)) :
    toFixed2 x = toString (n / 100) ++ "." ++
      (if n % 100 < 10 then "0" else "") ++ toString (n % 100) := by
  unfold toFixed2 toFixed2Nonneg
  rw [if_neg hx, hn]
  simp

lemma tf_7 : toFixed2 (7 : ℚ) = "7.00" := by
  rw [toFixed2_of_floor 7 700 (by norm_num) (by norm_num)]
  decide

lemma tf_49 : toFixed2 (4.9 : ℚ) = "4.90" := by
  rw [toFixed2_of_floor 4.9 490 (by norm_num) (by norm_num)]
  decide

lemma tf_1 : toFixed2 (1 : ℚ) = "1.00" := by
  rw [toFixed2_of_floor 1 100 (by norm_num) (by norm_num)]
  decide

lemma tf_300 : toFixed2 (300 : ℚ) = "300.00" := by
  rw [toFixed2_of_floor 300 30000 (by norm_num) (by norm_num)]
  decide

lemma tf_27 : toFixed2 (27 : ℚ) = "27.00" := by
  rw [toFixed2_of_floor 27 2700 (by norm_num) (by norm_num)]
  decide

lemma tf_500 : toFixed2 (500 : ℚ) = "500.00" := by
  rw [toFixed2_of_floor 500 50000 (by norm_num) (by norm_num)]
  decide

lemma tf_6 : toFixed2 (6 : ℚ) = "6.00" := by
  rw [toFixed2_of_floor 6 600 (by norm_num) (by norm_num)]
  decide

lemma tf_700 : toFixed2 (700 : ℚ) = "700.00" := by
  rw [toFixed2_of_floor 700 70000 (by norm_num) (by norm_num)]
  decide

lemma tf_31 : toFixed2 (31 : ℚ) = "31.00" := by
  rw [toFixed2_of_floor 31 3100 (by norm_num) (by norm_num)]
  decide

lemma tf_900 : toFixed2 (900 : ℚ) = "900.00" := by
  rw [toFixed2_of_floor 900 90000 (by norm_num) (by norm_num)]
  decide

lemma digits_pad : ∀ m : Nat, m < 100 →
    (((if m < 10 then "0" else "") ++ toString m).length = 2 ∧
     ((if m < 10 then "0" else "") ++ toString m).data.all Char.isDigit = true) := by decide

lemma toFixed2Nonneg_shape (x : ℚ) :
    ∃ ip frac, toFixed2Nonneg x = ip ++ "." ++ frac ∧ frac.length = 2 ∧
      frac.data.all Char.isDigit = true := by
  unfold toFixed2Nonneg
  refine ⟨toString ((⌊x * 100 + 1/2⌋).toNat / 100),
    (if (⌊x * 100 + 1/2⌋).toNat % 100 < 10 then "0" else "") ++
      toString ((⌊x * 100 + 1/2⌋).toNat % 100), ?_, ?_⟩
  · simp [String.append_assoc]
  · exact digits_pad _ (Nat.mod_lt _ (by norm_num))

lemma toFixed2_shape (x : ℚ) :
    ∃ ip frac, toFixed2 x = ip ++ "." ++ frac ∧ frac.length = 2 ∧
      frac.data.all Char.isDigit = true := by
  unfold toFixed2
  split_ifs with h
  · obtain ⟨ip, frac, he, h2, h3⟩ := toFixed2Nonneg_shape (-x)
    exact ⟨"-" ++ ip, frac, by rw [he]; simp [String.append_assoc], h2, h3⟩
  · exact toFixed2Nonneg_shape x

lemma csvRow_ex1 :
    String.intercalate "," (csvRow exReading1) = "t1,7.00,1.00,300.00,27.00,500.00" := by
  show String.intercalate ","
    ["t1", toFixed2 7, toFixed2 1, toFixed2 300, toFixed2 27, toFixed2 500] = _
  rw [tf_7, tf_1, tf_300, tf_27, tf_500]
  decide

lemma csvRow_ex2 :
    String.intercalate "," (csvRow exReading2) = "t22,4.90,6.00,700.00,31.00,900.00" := by
  show String.intercalate ","
    ["t22", toFixed2 4.9, toFixed2 6, toFixed2 700, toFixed2 31, toFixed2 900] = _
  rw [tf_49, tf_6, tf_700, tf_31, tf_900]
  decide

lemma sort_ex : sortByTimestampDesc exDateVal [exReading1, exReading2]
    = [exReading2, exReading1] := by rfl

/-- Claim C7, counterexample. The claim ends "newline-terminated", but
downloadData builds the CSV with join over a newline: the rows are
newline-separated and the output has no trailing newline. For the
two-reading list [exReading1, exReading2] the export is exactly the
header row plus two comma-joined data rows with all ten numeric fields
at 2 decimal places — and it is not of the form s ++ newline for any
string s. -/
theorem C7_counterexample_no_trailing_newline :
    csvContent exDateVal [exReading1, exReading2] =
      "Timestamp,pH,Turbidity (NTU),TDS (ppm),Temperature (°C),Conductivity (μS/cm)\nt22,4.90,6.00,700.00,31.00,900.00\nt1,7.00,1.00,300.00,27.00,500.00" ∧
    ∀ s : String, csvContent exDateVal [exReading1, exReading2] ≠ s ++ "\n" := by
  have hlit : csvContent exDateVal [exReading1, exReading2] =
      "Timestamp,pH,Turbidity (NTU),TDS (ppm),Temperature (°C),Conductivity (μS/cm)\nt22,4.90,6.00,700.00,31.00,900.00\nt1,7.00,1.00,300.00,27.00,500.00" := by
    show String.intercalate "\n" (csvLines exDateVal [exReading1, exReading2]) = _
    rw [csvLines, sort_ex]
    simp only [List.map_cons, List.map_nil]
    rw [csvRow_ex1, csvRow_ex2]
    decide
  refine ⟨hlit, fun s hs => ?_⟩
  rw [hlit] at hs
  have hd := congrArg String.data hs
  rw [String.data_append] at hd
  have hl := congrArg List.getLast? hd
  rw [List.getLast?_append] at hl
  simp only [show ("\n".data.getLast? : Option Char) = some (Char.ofNat 10) from rfl,
    Option.or_some] at hl
  exact absurd hl (by decide)

/-- Claim C7, amended: for every list of Readings, the CSV export is the
newline-join (newline-separated, no trailing newline) of a first row
holding exactly the six column headers comma-joined, followed by one
comma-joined row per Reading; each data row starts with the timestamp
and its five numeric fields each have exactly 2 digits after the decimal
point. -/
theorem C7_csv_structure (dateVal : String → Int) (data : List Reading) :
    csvContent dateVal data = String.intercalate "\n" (csvLines dateVal data) ∧
    (csvLines dateVal data).length = data.length + 1 ∧
    (csvLines dateVal data).head? = some (String.intercalate "," csvHeaders) ∧
    (∀ r ∈ data, String.intercalate "," (csvRow r) ∈ (csvLines dateVal data).tail) ∧
    (∀ r : Reading, (csvRow r).length = 6 ∧ (csvRow r).head? = some r.timestamp ∧
      ∀ s ∈ (csvRow r).tail, ∃ ip frac, s = ip ++ "." ++ frac ∧ frac.length = 2 ∧
        frac.data.all Char.isDigit = true) := by
  refine ⟨rfl, ?_, rfl, ?_, ?_⟩
  · simp [csvLines, (sortByTimestampDesc_perm dateVal data).length_eq]
  · intro r hr
    have hmem : r ∈ sortByTimestampDesc dateVal data :=
      (sortByTimestampDesc_perm dateVal data).mem_iff.mpr hr
    exact List.mem_map_of_mem _ hmem
  · intro r
    refine ⟨rfl, rfl, ?_⟩
    intro s hs
    simp only [csvRow, List.tail_cons, List.mem_cons, List.not_mem_nil, or_false] at hs
    rcases hs with rfl | rfl | rfl | rfl | rfl <;> exact toFixed2_shape _

/-- Claim C7, witness: the structural theorem applied to the concrete
two-reading list. -/
theorem C7_csv_structure_witness :
    (exReading1 ∈ [exReading1, exReading2]) ∧
    ((csvLines exDateVal [exReading1, exReading2]).length = 2 + 1 ∧
     String.intercalate "," (csvRow exReading1)
        ∈ (csvLines exDateVal [exReading1, exReading2]).tail) :=
  ⟨by simp,
   (C7_csv_structure exDateVal [exReading1, exReading2]).2.1,
   (C7_csv_structure exDateVal [exReading1, exReading2]).2.2.2.1 exReading1 (by simp)⟩

lemma simStep_invariant (s : CorrosionSimState) (e : SimEvent)
    (h : s.sequence.length = 10 ∧ s.selectedTimeStep < 10) (hv : validEvent s e) :
    (simStep s e).sequence.length = 10 ∧ (simStep s e).selectedTimeStep < 10 := by
  cases e with
  | paramChange p v now =>
    refine ⟨?_, ?_⟩
    · show (handleParameterChange p v now s).sequence.length = 10
      unfold handleParameterChange
      cases hm : s.sequence[s.selectedTimeStep]? <;> simp [hm, List.length_set, h.1]
    · exact h.2
  | timeStepChange step =>
    refine ⟨h.1, ?_⟩
    show step < 10
    exact h.1 ▸ hv

lemma runSim_invariant : ∀ (es : List SimEvent) (s : CorrosionSimState),
    (s.sequence.length = 10 ∧ s.selectedTimeStep < 10) → ValidRun s es →
    (runSim s es).sequence.length = 10 ∧ (runSim s es).selectedTimeStep < 10 := by
  intro es
  induction es with
  | nil => intro s h _; exact h
  | cons e es ih =>
    intro s h hv
    exact ih (simStep s e) (simStep_invariant s e h hv.1) hv.2

/-- Claim C9: the body of POST /simulate-corrosion always has exactly 10
entries. The sequence state is initialized with 10 entries and every
reachable interaction sequence (handleParameterChange with the current
selection, handleTimeStepChange with a rendered index) preserves the
length 10; moreover handleParameterChange replaces only the entry at the
selected time step, leaving every other index unchanged. -/
theorem C9_simulation_sequence_length (t0 : String) (es : List SimEvent)
    (hv : ValidRun (initialSimState t0) es) :
    (simulateCorrosionBody (runSim (initialSimState t0) es)).length = 10 ∧
    (runSim (initialSimState t0) es).selectedTimeStep < 10 ∧
    (∀ (s : CorrosionSimState) (p : Param) (v : ℚ) (now : String) (j : Nat),
      j ≠ s.selectedTimeStep →
      (handleParameterChange p v now s).sequence[j]? = s.sequence[j]?) := by
  have h0 : (initialSimState t0).sequence.length = 10 ∧
      (initialSimState t0).selectedTimeStep < 10 := by
    constructor
    · simp [initialSimState, initialSequence]
    · norm_num [initialSimState]
  have hinv := runSim_invariant es (initialSimState t0) h0 hv
  refine ⟨hinv.1, hinv.2, ?_⟩
  intro s p v now j hj
  unfold handleParameterChange
  cases hm : s.sequence[s.selectedTimeStep]? with
  | none => rfl
  | some old =>
    simp only
    exact List.getElem?_set_ne (fun h => hj h.symm)

/-- Claim C9, witness: a concrete valid run — select step 3, then edit
the pH — leaves the simulate-corrosion body at exactly 10 entries. -/
theorem C9_simulation_sequence_length_witness :
    ValidRun (initialSimState "t0")
      [SimEvent.timeStepChange 3, SimEvent.paramChange Param.ph 6 "t1"] ∧
    (simulateCorrosionBody (runSim (initialSimState "t0")
      [SimEvent.timeStepChange 3, SimEvent.paramChange Param.ph 6 "t1"])).length = 10 := by
  have hv : ValidRun (initialSimState "t0")
      [SimEvent.timeStepChange 3, SimEvent.paramChange Param.ph 6 "t1"] := by
    refine ⟨?_, trivial, trivial⟩
    show (3 : Nat) < (initialSimState "t0").sequence.length
    simp [initialSimState, initialSequence]
  exact ⟨hv, (C9_simulation_sequence_length "t0" _ hv).1⟩

end WaterQuality
